import Mathlib

/-!
Verification of the tiny-world-explorer camera application against its
natural-language specification.

The development shallowly embeds the relevant JavaScript source:
* `src/src/App.jsx` — Transform Engine (pan/zoom clamping, convolution
  kernels), preference persistence effects;
* `src/unnamed/part_000` (`useCamera` hook) — Device Registry
  (`getDevices`), Stream Negotiator (`startStream` effect), Capture /
  Recording Bridge (`takePhoto`, `startRecording`, `stopRecording`).

Numbers that are JavaScript doubles in the source are modelled as
rationals (all the arithmetic involved here is exact on rationals);
stateful React effects are modelled as explicit state-passing functions
that additionally return the list of primitive events they perform, so
that ordering properties (acquire-before-release) can be stated.
-/

namespace TWE

/-! ## Transform Engine (`App.jsx`)

`handlePanChange` (App.jsx lines 132-142), the drag-delta update inside
`handleMouseMove` (lines 186-195), the `effectivePan` computation of
`videoStyle` (line 111) and the pan-reset effect (lines 125-129). -/

/-- Pan state, normalized (App.jsx line 50: `pan = { x: 0, y: 0 }`). -/
structure Pan where
  x : ℚ
  y : ℚ
deriving DecidableEq, Repr

/-- Zoom slider ceiling: the ControlPanel zoom slider has `max={5}`. -/
def maxScale : ℚ := 5

/-- App.jsx `handlePanChange`: early-returns when `filters.zoom <= 1`,
otherwise clamps each axis independently to `[-maxPan, maxPan]` with
`maxPan = (zoom - 1) / 2`. -/
def handlePanChange (zoom : ℚ) (pan : Pan) (newX newY : ℚ) : Pan :=
  if zoom ≤ 1 then pan
  else
    let maxPan := (zoom - 1) / 2
    { x := max (-maxPan) (min maxPan newX)
      y := max (-maxPan) (min maxPan newY) }

/-- The `setPan` callback inside App.jsx `handleMouseMove`: adds the drag
delta to the previous pan and clamps each axis to `[-maxPan, maxPan]`
with `maxPan = (zoom - 1) / 2` (no `zoom <= 1` early return here; the
drag can only have started at `zoom > 1`). -/
def panDeltaUpdate (zoom : ℚ) (pan : Pan) (panDeltaX panDeltaY : ℚ) : Pan :=
  let maxPan := (zoom - 1) / 2
  { x := max (-maxPan) (min maxPan (pan.x + panDeltaX))
    y := max (-maxPan) (min maxPan (pan.y + panDeltaY)) }

/-- App.jsx `videoStyle` safety line: `filters.zoom === 1 ? {x:0,y:0} : pan`. -/
def effectivePan (zoom : ℚ) (pan : Pan) : Pan :=
  if zoom = 1 then ⟨0, 0⟩ else pan

/-- App.jsx pan-reset effect (lines 125-129): whenever `filters.zoom === 1`
the stored pan is set to `{x:0, y:0}`. -/
def panResetEffect (zoom : ℚ) (pan : Pan) : Pan :=
  if zoom = 1 then ⟨0, 0⟩ else pan

/-! Convolution kernels (App.jsx `sharpenMatrix`, `embossMatrix`,
lines 210-226). The JS builds a string of nine numbers; we model the
nine numeric entries directly. -/

/-- App.jsx `sharpenMatrix`: `s = (filters.sharpen / 100) * 15`, kernel
string `0 -s 0 -s 1+4s -s 0 -s 0`. -/
def sharpenMatrix (sharpen : ℚ) : List ℚ :=
  let s := sharpen / 100 * 15
  [0, -s, 0, -s, 1 + 4 * s, -s, 0, -s, 0]

/-- App.jsx `embossMatrix`: `s = (filters.emboss / 100) * 3`, kernel
string `-2s -1s 0 -1s 1 1s 0 1s 2s`. -/
def embossMatrix (emboss : ℚ) : List ℚ :=
  let s := emboss / 100 * 3
  [-2 * s, -1 * s, 0, -1 * s, 1, 1 * s, 0, 1 * s, 2 * s]

/-- The identity 3×3 convolution kernel from the spec. -/
def identityKernel : List ℚ := [0, 0, 0, 0, 1, 0, 0, 0, 0]

/-- Modelled from the spec (refinement side): the sharpen kernel formula
`[0,-s,0, -s,1+4s,-s, 0,-s,0]` with `s = (sharpenIntensity/100)*15`. -/
def sharpenSpecKernel (intensity : ℚ) : List ℚ :=
  let s := intensity / 100 * 15
  [0, -s, 0, -s, 1 + 4 * s, -s, 0, -s, 0]

/-- Modelled from the spec (refinement side): the emboss kernel formula
`[-2e,-1e,0, -1e,1,1e, 0,1e,2e]` with `e = (embossIntensity/100)*3`. -/
def embossSpecKernel (intensity : ℚ) : List ℚ :=
  let s := intensity / 100 * 3
  [-2 * s, -1 * s, 0, -1 * s, 1, 1 * s, 0, 1 * s, 2 * s]

/-! ## Stream Negotiator (`useCamera` hook, stream-management effect)

The stream-management effect (part_000 lines 72-150) runs `startStream`
whenever `(selectedDeviceId, compatibilityMode)` changes.  Acquisition
(`getUserMedia`) is modelled by an oracle `gum : Constraints → Except
String Nat` giving, per constraint set, either an error or the id of
the acquired stream.  The `mounted` flag is the value the effect's
closure variable has when acquisition completes: `false` exactly when
the effect was cleaned up (unmount or a superseding change of device /
profile) before acquisition finished.  Each run returns the list of
primitive events it performs, in order, together with the hook state it
leaves behind. -/

/-- A `getUserMedia` video constraint set: exact device id plus optional
ideal width/height/frameRate hints. -/
structure Constraints where
  deviceId : String
  widthIdeal : Option Nat
  heightIdeal : Option Nat
  frameRateIdeal : Option Nat
deriving DecidableEq, Repr

/-- The primary constraint set built in `startStream`: 640×480@30 in
compatibility mode, 1920×1080 otherwise, always bound to the exact
selected device. -/
def primaryConstraints (compatibilityMode : Bool) (selectedDeviceId : String) :
    Constraints :=
  if compatibilityMode then ⟨selectedDeviceId, some 640, some 480, some 30⟩
  else ⟨selectedDeviceId, some 1920, some 1080, none⟩

/-- The "hard last resort" constraint set: device identity only. -/
def minimalConstraints (selectedDeviceId : String) : Constraints :=
  ⟨selectedDeviceId, none, none, none⟩

/-- The outcome of one `getUserMedia` call: an acquired stream id or a
thrown error message. -/
inductive AcqResult where
  | ok (streamId : Nat)
  | err (msg : String)
deriving DecidableEq, Repr

/-- Primitive events a `startStream` run performs, in order. -/
inductive Ev where
  | getUserMedia (c : Constraints) (result : AcqResult)
  | stopTracks (streamId : Nat)
  | setStream (s : Option Nat)
  | setError (e : Option String)
deriving DecidableEq, Repr

/-- The hook state `startStream` touches: the active stream and the
user-visible error. -/
structure HookState where
  stream : Option Nat
  error : Option String
deriving DecidableEq, Repr

/-- The `if (mounted)` branch of `startStream` after a successful
acquisition of stream `s` (part_000 lines 105-124): when still mounted,
the `setStream` updater stops the previous stream's tracks and installs
`s`, then the error is cleared; when unmounted (or superseded), the
fresh stream's tracks are stopped immediately and nothing else
changes. -/
def acquiredBranch (mounted : Bool) (s : Nat) (st : HookState) :
    List Ev × HookState :=
  if mounted then
    ((match st.stream with
      | some p => [Ev.stopTracks p]
      | none => []) ++ [Ev.setStream (some s), Ev.setError none],
     { stream := some s, error := none })
  else
    ([Ev.stopTracks s], st)

/-- One run of `startStream` (part_000 lines 80-132): try the primary
constraints; on failure retry once with the minimal constraints; on a
second failure, if still mounted, set the fault text and null the
stream (the outer catch). -/
def startStream (compat : Bool) (dev : String) (mounted : Bool)
    (gum : Constraints → AcqResult) (st : HookState) :
    List Ev × HookState :=
  let full := primaryConstraints compat dev
  match gum full with
  | .ok s =>
      let r := acquiredBranch mounted s st
      (Ev.getUserMedia full (.ok s) :: r.1, r.2)
  | .err e1 =>
      let minimal := minimalConstraints dev
      match gum minimal with
      | .ok s =>
          let r := acquiredBranch mounted s st
          (Ev.getUserMedia full (.err e1) :: Ev.getUserMedia minimal (.ok s) :: r.1,
           r.2)
      | .err e2 =>
          if mounted then
            ([Ev.getUserMedia full (.err e1), Ev.getUserMedia minimal (.err e2),
              Ev.setError (some ("Failed to connect: " ++ e2)), Ev.setStream none],
             { stream := none, error := some ("Failed to connect: " ++ e2) })
          else
            ([Ev.getUserMedia full (.err e1), Ev.getUserMedia minimal (.err e2)],
             st)

/-- The cleanup of the effect at part_000 lines 153-159 (deps
`[stream]`): whenever the `stream` state value changes, React runs the
previous closure's cleanup, stopping the previous stream's tracks. -/
def streamCleanup (old new_ : Option Nat) : List Ev :=
  match old with
  | none => []
  | some p => if new_ = some p then [] else [Ev.stopTracks p]

/-- A `startStream` run followed by the `[stream]`-dependent cleanup
that a change of the `stream` state triggers. -/
def runStartStream (compat : Bool) (dev : String) (mounted : Bool)
    (gum : Constraints → AcqResult) (st : HookState) :
    List Ev × HookState :=
  let r := startStream compat dev mounted gum st
  (r.1 ++ streamCleanup st.stream r.2.stream, r.2)

/-- The id of the stream the constraint ladder acquires, if any:
primary result, else the minimal-constraints result. -/
def acquireResult (compat : Bool) (dev : String)
    (gum : Constraints → AcqResult) : AcqResult :=
  match gum (primaryConstraints compat dev) with
  | .ok s => .ok s
  | .err _ => gum (minimalConstraints dev)

/-- Whether an event is a `getUserMedia` acquisition attempt. -/
def isGumCall : Ev → Bool
  | Ev.getUserMedia _ _ => true
  | _ => false

/-- The acquisition attempts of a run, in order. -/
def gumCalls (l : List Ev) : List Ev := l.filter isGumCall

/-- Checks that every `stopTracks` event in the list is preceded by a
successful `getUserMedia` event; `seenOk` records whether one was seen
already. -/
def stopsPrecededByOkAux : Bool → List Ev → Bool
  | _, [] => true
  | _, Ev.getUserMedia _ (AcqResult.ok _) :: rest => stopsPrecededByOkAux true rest
  | seenOk, Ev.getUserMedia _ (AcqResult.err _) :: rest => stopsPrecededByOkAux seenOk rest
  | seenOk, Ev.stopTracks _ :: rest => seenOk && stopsPrecededByOkAux seenOk rest
  | seenOk, Ev.setStream _ :: rest => stopsPrecededByOkAux seenOk rest
  | seenOk, Ev.setError _ :: rest => stopsPrecededByOkAux seenOk rest

/-- Every `stopTracks` in the list is preceded by a successful
acquisition event. -/
def stopsPrecededByOk (l : List Ev) : Bool := stopsPrecededByOkAux false l

/-! ## Device Registry (`useCamera` hook, `getDevices`)

`getDevices` (part_000 lines 13-26) enumerates devices, keeps only
`videoinput` kinds, stores them, and picks the first one when no device
is selected yet.  On an enumeration error it only logs.  We model the
React state it touches plus the console log it emits. -/

/-- A platform device descriptor as seen by `enumerateDevices`. -/
structure Device where
  deviceId : String
  kind : String
  label : String
deriving DecidableEq, Repr

/-- The registry state touched by `getDevices`: the `devices` list and
the `selectedDeviceId` string (empty string = no selection). -/
structure RegistryState where
  devices : List Device
  selectedDeviceId : String
deriving DecidableEq, Repr

/-- `useCamera.getDevices`: on success, filter to `videoinput`, replace
the device list, and select the first device only when nothing is
selected yet; on failure, log the fault and change nothing. -/
def getDevices (st : RegistryState) (enumResult : Except String (List Device)) :
    RegistryState × List String :=
  match enumResult with
  | .error e => (st, ["Error enumerating devices: " ++ e])
  | .ok deviceList =>
      let videoDevices := deviceList.filter (fun d => d.kind == "videoinput")
      let selected :=
        if st.selectedDeviceId = "" then
          match videoDevices with
          | [] => st.selectedDeviceId
          | d :: _ => d.deviceId
        else st.selectedDeviceId
      ({ devices := videoDevices, selectedDeviceId := selected }, [])

/-! ## Capture / Recording Bridge (`useCamera` hook) -/

/-- The source video element as `takePhoto` sees it: native pixel
dimensions and the raw decoded frame (rows of pixel values). -/
structure VideoElement where
  videoWidth : Nat
  videoHeight : Nat
  frame : List (List Nat)
deriving DecidableEq, Repr

/-- A captured still: the canvas dimensions and the pixels drawn. -/
structure Photo where
  width : Nat
  height : Nat
  pixels : List (List Nat)
deriving DecidableEq, Repr

/-- `useCamera.takePhoto` (part_000 lines 170-182): returns `null` when
no video element is passed; otherwise creates a canvas sized
`videoWidth × videoHeight` and `drawImage(videoElement, 0, 0)` — an
unscaled, unfiltered copy of the raw decoded frame.  The display
transform and SVG filters live in CSS on the *displayed* element and
are not consulted, so they cannot reach the captured pixels. -/
def takePhoto (videoElement : Option VideoElement) : Option Photo :=
  match videoElement with
  | none => none
  | some v => some { width := v.videoWidth, height := v.videoHeight, pixels := v.frame }

/-- The recording state touched by `startRecording` / `stopRecording`:
the active stream (by id), the `isRecording` flag, the
`mediaRecorderRef` (recorder id, `none` when never assigned), the
accumulated `recordedChunksRef`, and a counter used to give a fresh id
to each `new MediaRecorder(stream)`. -/
structure RecState where
  stream : Option Nat
  isRecording : Bool
  recorder : Option Nat
  chunks : List Nat
  nextRecorderId : Nat
deriving DecidableEq, Repr

/-- `useCamera.startRecording` (part_000 lines 184-198): no-op when
there is no stream; otherwise it unconditionally clears
`recordedChunksRef`, constructs a fresh `MediaRecorder`, starts it,
sets `isRecording`, and overwrites `mediaRecorderRef` — with no check
of `isRecording`. -/
def startRecording (st : RecState) : RecState :=
  match st.stream with
  | none => st
  | some _ =>
      { st with
        chunks := []
        isRecording := true
        recorder := some st.nextRecorderId
        nextRecorderId := st.nextRecorderId + 1 }

/-- `useCamera.stopRecording` (part_000 lines 200-212): resolves `null`
when `mediaRecorderRef.current` is null; otherwise stops the recorder,
builds a blob from the accumulated chunks (modelled as the chunk list
itself), clears `isRecording` and resolves with the blob URL. -/
def stopRecording (st : RecState) : Option (List Nat) × RecState :=
  match st.recorder with
  | none => (none, st)
  | some _ => (some st.chunks, { st with isRecording := false })

/-! ## Preference persistence (`App.jsx` Load/Save Settings effects)

The Save effect (App.jsx lines 98-107) writes
`{filters, aspectRatio, compatibilityMode}` as JSON under the key
`camera_settings_<deviceId>`, guarded by a non-empty selection and the
`isLoadedRef` flag.  The Load effect (lines 66-95) reads the same key
and applies `parsed.filters || DEFAULT_FILTERS`,
`parsed.aspectRatio || '3/2'`, and `setCompatibilityMode` only when
`parsed.compatibilityMode !== undefined`.  JSON serialization
round-trips these records exactly, so the store maps keys directly to
parsed records; a missing JSON field is a `none`. -/

/-- The filter sliders/toggles persisted per device (App.jsx
`DEFAULT_FILTERS` shape). -/
structure Filters where
  zoom : ℚ
  brightness : ℚ
  contrast : ℚ
  saturate : ℚ
  sepia : ℚ
  invert : ℚ
  edgeDetection : Bool
  falseColor : Bool
  emboss : ℚ
  sharpen : ℚ
  grid : Bool
  crosshair : Bool
deriving DecidableEq, Repr

/-- App.jsx `DEFAULT_FILTERS`. -/
def DEFAULT_FILTERS : Filters :=
  ⟨1, 100, 100, 100, 0, 0, false, false, 0, 0, false, false⟩

/-- A parsed settings blob as read back from storage; each field may be
absent (JS `undefined`). -/
structure StoredSettings where
  filters : Option Filters
  aspectRatio : Option String
  compatibilityMode : Option Bool
deriving DecidableEq, Repr

/-- The localStorage model: key to stored blob. -/
def Store := String → Option StoredSettings

/-- The storage key `camera_settings_<deviceId>`. -/
def settingsKey (deviceId : String) : String :=
  "camera_settings_" ++ deviceId

/-- The Save Settings effect: early-returns when no device is selected
or the load guard `isLoadedRef` is still false; otherwise writes the
full record under the device's key. -/
def saveSettings (store : Store) (selectedDeviceId : String) (isLoaded : Bool)
    (filters : Filters) (aspectRatio : String) (compatibilityMode : Bool) :
    Store :=
  if selectedDeviceId = "" ∨ isLoaded = false then store
  else fun k =>
    if k = settingsKey selectedDeviceId then
      some ⟨some filters, some aspectRatio, some compatibilityMode⟩
    else store k

/-- The preference state the Load Settings effect produces. -/
structure LoadedState where
  filters : Filters
  aspectRatio : String
  compatibilityMode : Bool
deriving DecidableEq, Repr

/-- The Load Settings effect: early-returns when no device is selected;
with no saved blob it applies the defaults (keeping the current
compatibility mode); with a blob it applies `parsed.filters ||
DEFAULT_FILTERS` (an object is always truthy, so `none` means absent),
`parsed.aspectRatio || '3/2'` (absent or the empty string fall back),
and keeps the current compatibility mode when the field is absent. -/
def loadSettings (store : Store) (selectedDeviceId : String)
    (current : LoadedState) : LoadedState :=
  if selectedDeviceId = "" then current
  else
    match store (settingsKey selectedDeviceId) with
    | none => ⟨DEFAULT_FILTERS, "3/2", current.compatibilityMode⟩
    | some parsed =>
        { filters := parsed.filters.getD DEFAULT_FILTERS
          aspectRatio :=
            match parsed.aspectRatio with
            | none => "3/2"
            | some a => if a = "" then "3/2" else a
          compatibilityMode := parsed.compatibilityMode.getD current.compatibilityMode }

/-! ### Helper lemmas -/

lemma abs_clamp_le (m v : ℚ) (hm : 0 ≤ m) : |max (-m) (min m v)| ≤ m := by
  rw [abs_le]
  constructor
  · exact le_max_left _ _
  · exact max_le (neg_le_self hm) (min_le_left _ _)

/-! ### Claim theorems for the Transform Engine -/

/-- C3: for every scale `s ∈ [1, maxScale]`, the pan state after a setPan
(`handlePanChange`) or pan-delta (`panDeltaUpdate`) operation satisfies
`|pan.x| ≤ (s-1)/2` and `|pan.y| ≤ (s-1)/2`, each axis clamped
independently; a `handlePanChange` request at scale ≤ 1 is a no-op; at
scale 1 the stored pan is forced to `{0,0}` by the reset effect, a drag
delta applied to that reset state leaves it at `{0,0}`, and the
effective pan emitted in the transform is exactly `{0,0}`. -/
theorem c3_pan_clamped (zoom : ℚ) (pan : Pan) (nx ny dx dy : ℚ)
    (h1 : 1 ≤ zoom) (h2 : zoom ≤ maxScale) :
    (zoom ≤ 1 → handlePanChange zoom pan nx ny = pan)
    ∧ (1 < zoom →
        |(handlePanChange zoom pan nx ny).x| ≤ (zoom - 1) / 2
        ∧ |(handlePanChange zoom pan nx ny).y| ≤ (zoom - 1) / 2
        ∧ |(panDeltaUpdate zoom pan dx dy).x| ≤ (zoom - 1) / 2
        ∧ |(panDeltaUpdate zoom pan dx dy).y| ≤ (zoom - 1) / 2)
    ∧ (zoom = 1 →
        effectivePan zoom pan = ⟨0, 0⟩
        ∧ panResetEffect zoom pan = ⟨0, 0⟩
        ∧ panDeltaUpdate zoom (panResetEffect zoom pan) dx dy
            = panResetEffect zoom pan) := by
  refine ⟨fun hle => ?_, fun hgt => ?_, fun heq => ?_⟩
  · simp [handlePanChange, hle]
  · have hm : (0 : ℚ) ≤ (zoom - 1) / 2 := by linarith
    have hif : ¬ zoom ≤ 1 := not_le.mpr hgt
    refine ⟨?_, ?_, ?_, ?_⟩ <;>
      simp only [handlePanChange, panDeltaUpdate, if_neg hif] <;>
      exact abs_clamp_le _ _ hm
  · subst heq
    have hz : ((1 : ℚ) - 1) / 2 = 0 := by norm_num
    refine ⟨by simp [effectivePan], by simp [panResetEffect], ?_⟩
    simp only [panResetEffect, if_pos rfl, panDeltaUpdate, hz]
    have hx : max (-(0 : ℚ)) (min 0 ((Pan.mk 0 0).x + dx)) = 0 := by
      simp [Pan.mk]
    have hy : max (-(0 : ℚ)) (min 0 ((Pan.mk 0 0).y + dy)) = 0 := by
      simp [Pan.mk]
    simp_all

/-- Witness for `c3_pan_clamped` at `zoom = 2`, `pan = {0,0}`,
requests `(5, -5)` as absolute pan and `(3, -3)` as drag delta. -/
theorem c3_pan_clamped_witness :
    |(handlePanChange 2 ⟨0, 0⟩ 5 (-5)).x| ≤ (2 - 1) / 2
    ∧ |(panDeltaUpdate 2 ⟨0, 0⟩ 3 (-3)).y| ≤ ((2 : ℚ) - 1) / 2 := by
  have h := c3_pan_clamped 2 ⟨0, 0⟩ 5 (-5) 3 (-3) (by norm_num) (by norm_num [maxScale])
  have h2 := h.2.1 (by norm_num)
  exact ⟨h2.1, h2.2.2.2⟩

/-- C4: the sharpen and emboss kernels are pure functions of their
intensity inputs in `[0,100]` and coincide with the spec formulas
(`s = (sharpen/100)*15`, `e = (emboss/100)*3`); at intensity 0 both
equal the identity kernel, and each kernel sums to 1 at every intensity
in range (in fact at every intensity). -/
theorem c4_kernel_formulas (t e : ℚ) (ht0 : 0 ≤ t) (ht1 : t ≤ 100)
    (he0 : 0 ≤ e) (he1 : e ≤ 100) :
    sharpenMatrix t = sharpenSpecKernel t
    ∧ embossMatrix e = embossSpecKernel e
    ∧ sharpenMatrix 0 = identityKernel
    ∧ embossMatrix 0 = identityKernel
    ∧ (sharpenMatrix t).sum = 1
    ∧ (embossMatrix e).sum = 1 := by
  refine ⟨rfl, rfl, by norm_num [sharpenMatrix, identityKernel],
    by norm_num [embossMatrix, identityKernel], ?_, ?_⟩
  · simp [sharpenMatrix]
    ring
  · simp [embossMatrix]
    ring

/-- Witness for `c4_kernel_formulas` at sharpen intensity 40 and emboss
intensity 70. -/
theorem c4_kernel_formulas_witness :
    (sharpenMatrix 40).sum = 1 ∧ (embossMatrix 70).sum = 1 := by
  have h := c4_kernel_formulas 40 70 (by norm_num) (by norm_num)
    (by norm_num) (by norm_num)
  exact ⟨h.2.2.2.2.1, h.2.2.2.2.2⟩

/-! ### Claim theorems for Device Registry and Capture/Recording Bridge -/

/-- C5 counterexample: device `A` was selected, the new enumeration
contains only device `B`, yet the selection does **not** become empty —
`getDevices` never clears `selectedDeviceId`, so the stale identity is
retained, contradicting the claim that an absent identity empties the
selection. -/
theorem c5_counterexample :
    (getDevices { devices := [⟨"A", "videoinput", "Cam A"⟩], selectedDeviceId := "A" }
        (Except.ok [⟨"B", "videoinput", "Cam B"⟩])).1.selectedDeviceId = "A"
    ∧ (getDevices { devices := [⟨"A", "videoinput", "Cam A"⟩], selectedDeviceId := "A" }
        (Except.ok [⟨"B", "videoinput", "Cam B"⟩])).1.selectedDeviceId ≠ "" := by
  constructor
  · rfl
  · decide

/-- C5 (amended): after a successful enumeration the device list is the
filtered `videoinput` list; if a device was already selected the
selection is unchanged (whether or not that identity is still present —
it is never emptied); if nothing was selected and at least one video
device exists, the first one in enumeration order becomes selected. -/
theorem c5_selection_policy (st : RegistryState) (l : List Device) :
    (getDevices st (Except.ok l)).1.devices = l.filter (fun d => d.kind == "videoinput")
    ∧ (st.selectedDeviceId ≠ "" →
        (getDevices st (Except.ok l)).1.selectedDeviceId = st.selectedDeviceId)
    ∧ (st.selectedDeviceId = "" →
        ∀ d rest, l.filter (fun d => d.kind == "videoinput") = d :: rest →
          (getDevices st (Except.ok l)).1.selectedDeviceId = d.deviceId) := by
  refine ⟨rfl, fun hne => ?_, fun he d rest hf => ?_⟩
  · simp [getDevices, hne]
  · simp [getDevices, he, hf]

/-- Witness for `c5_selection_policy`: a nonempty selection survives
re-enumeration, and an empty selection picks the first video device. -/
theorem c5_selection_policy_witness :
    (getDevices { devices := [], selectedDeviceId := "A" }
        (Except.ok [⟨"B", "videoinput", "Cam B"⟩])).1.selectedDeviceId = "A"
    ∧ (getDevices { devices := [], selectedDeviceId := "" }
        (Except.ok [⟨"B", "videoinput", "Cam B"⟩])).1.selectedDeviceId = "B" := by
  constructor
  · exact (c5_selection_policy { devices := [], selectedDeviceId := "A" }
      [⟨"B", "videoinput", "Cam B"⟩]).2.1 (by decide)
  · exact (c5_selection_policy { devices := [], selectedDeviceId := "" }
      [⟨"B", "videoinput", "Cam B"⟩]).2.2 rfl ⟨"B", "videoinput", "Cam B"⟩ [] (by decide)

/-- C10 counterexample: a prior successful enumeration left device `A`
in the list; a failing enumeration leaves that list **unchanged and
non-empty**, so the caller does not observe an empty device sequence as
the claim states. -/
theorem c10_counterexample :
    (getDevices { devices := [⟨"A", "videoinput", "Cam A"⟩], selectedDeviceId := "A" }
        (Except.error "NotAllowedError")).1.devices ≠ [] := by
  decide

/-- C10 (amended): when enumeration fails, `getDevices` raises nothing
to the caller (it is a total function on the error case), the fault is
only logged (exactly one log line, state untouched), and the caller
observes an empty device sequence only in the sense that the list is
left as it was — in particular still empty whenever no enumeration has
yet succeeded, e.g. from the initial state. -/
theorem c10_silent_failure (st : RegistryState) (e : String) :
    (getDevices st (Except.error e)).1 = st
    ∧ (getDevices st (Except.error e)).2 = ["Error enumerating devices: " ++ e]
    ∧ (st.devices = [] → (getDevices st (Except.error e)).1.devices = []) := by
  exact ⟨rfl, rfl, fun h => h⟩

/-- Witness for `c10_silent_failure` from the initial (empty) state. -/
theorem c10_silent_failure_witness :
    (getDevices { devices := [], selectedDeviceId := "" }
        (Except.error "boom")).1.devices = [] := by
  exact (c10_silent_failure { devices := [], selectedDeviceId := "" } "boom").2.2 rfl

/-- C6 evaluation at the failing input: with an active stream, a
recording in progress (recorder 0 installed, one chunk accumulated),
calling `startRecording` again is **not** rejected or ignored — it
installs a second, fresh recorder (id 1) and discards the in-progress
session's chunks. -/
theorem c6_second_start_discards :
    startRecording ⟨some 1, true, some 0, [9, 8], 1⟩
      = ⟨some 1, true, some 1, [], 2⟩
    ∧ (startRecording ⟨some 1, true, some 0, [9, 8], 1⟩).recorder ≠ some 0
    ∧ (startRecording ⟨some 1, true, some 0, [9, 8], 1⟩).chunks = [] := by
  refine ⟨rfl, by decide, rfl⟩

/-- C7: `stopRecording` called when no recorder was ever started
(`mediaRecorderRef.current` null) resolves to `null` and changes
nothing, raising no error; and `startRecording` with no active stream
is a no-op that starts no recorder. -/
theorem c7_idle_ops (st : RecState) :
    (st.recorder = none → stopRecording st = (none, st))
    ∧ (st.stream = none → startRecording st = st) := by
  constructor
  · intro h
    simp [stopRecording, h]
  · intro h
    simp [startRecording, h]

/-- Witness for `c7_idle_ops` at the initial recording state. -/
theorem c7_idle_ops_witness :
    stopRecording ⟨none, false, none, [], 0⟩ = (none, ⟨none, false, none, [], 0⟩)
    ∧ startRecording ⟨none, false, none, [], 0⟩ = ⟨none, false, none, [], 0⟩ := by
  exact ⟨(c7_idle_ops _).1 rfl, (c7_idle_ops _).2 rfl⟩

/-- C8: `takePhoto` returns `null` when no frame source is available,
and otherwise captures at the source's full native pixel dimensions
(`videoWidth × videoHeight`) with the pixels equal to the raw decoded
frame — the display transform and the Transform Engine's filters are
not inputs of `takePhoto`, so neither can scale or filter the capture. -/
theorem c8_snapshot_native :
    takePhoto none = none
    ∧ ∀ v : VideoElement,
        takePhoto (some v)
          = some { width := v.videoWidth, height := v.videoHeight, pixels := v.frame } := by
  exact ⟨rfl, fun v => rfl⟩

/-! ### Claim theorems for the Stream Negotiator -/

lemma stopsPrecededByOkAux_spec :
    ∀ l : List Ev, stopsPrecededByOkAux false l = true →
      ∀ i p, l.get? i = some (Ev.stopTracks p) →
        ∃ j, j < i ∧ ∃ c s, l.get? j = some (Ev.getUserMedia c (AcqResult.ok s)) := by
  intro l
  induction l with
  | nil =>
    intro _ i p hi
    simp at hi
  | cons e rest ih =>
    intro h i p hi
    cases e with
    | getUserMedia c r =>
      cases r with
      | ok s =>
        cases i with
        | zero => simp at hi
        | succ n => exact ⟨0, Nat.succ_pos n, c, s, rfl⟩
      | err m =>
        have h' : stopsPrecededByOkAux false rest = true := by
          simpa [stopsPrecededByOkAux] using h
        cases i with
        | zero => simp at hi
        | succ n =>
          obtain ⟨j, hj, c', s', hg⟩ := ih h' n p (by simpa using hi)
          exact ⟨j + 1, Nat.succ_lt_succ hj, c', s', by simpa using hg⟩
    | stopTracks q =>
      simp [stopsPrecededByOkAux] at h
    | setStream q =>
      have h' : stopsPrecededByOkAux false rest = true := by
        simpa [stopsPrecededByOkAux] using h
      cases i with
      | zero => simp at hi
      | succ n =>
        obtain ⟨j, hj, c', s', hg⟩ := ih h' n p (by simpa using hi)
        exact ⟨j + 1, Nat.succ_lt_succ hj, c', s', by simpa using hg⟩
    | setError q =>
      have h' : stopsPrecededByOkAux false rest = true := by
        simpa [stopsPrecededByOkAux] using h
      cases i with
      | zero => simp at hi
      | succ n =>
        obtain ⟨j, hj, c', s', hg⟩ := ih h' n p (by simpa using hi)
        exact ⟨j + 1, Nat.succ_lt_succ hj, c', s', by simpa using hg⟩

lemma startStream_stops_ok (compat : Bool) (dev : String) (mounted : Bool)
    (gum : Constraints → AcqResult) (st : HookState) :
    stopsPrecededByOk (startStream compat dev mounted gum st).1 = true := by
  unfold stopsPrecededByOk
  rcases h1 : gum (primaryConstraints compat dev) with s | e1
  · cases mounted
    · simp [startStream, acquiredBranch, h1, stopsPrecededByOkAux]
    · rcases hst : st.stream with _ | p <;>
        simp [startStream, acquiredBranch, h1, hst, stopsPrecededByOkAux]
  · rcases h2 : gum (minimalConstraints dev) with s | e2
    · cases mounted
      · simp [startStream, acquiredBranch, h1, h2, stopsPrecededByOkAux]
      · rcases hst : st.stream with _ | p <;>
          simp [startStream, acquiredBranch, h1, h2, hst, stopsPrecededByOkAux]
    · cases mounted <;> simp [startStream, h1, h2, stopsPrecededByOkAux]

lemma gumCalls_streamCleanup (old new_ : Option Nat) :
    gumCalls (streamCleanup old new_) = [] := by
  rcases old with _ | p
  · rfl
  · by_cases h : new_ = some p <;> simp [streamCleanup, gumCalls, h, isGumCall]

lemma isGumCall_streamCleanup (old new_ : Option Nat) :
    ∀ a ∈ streamCleanup old new_, isGumCall a = false := by
  intro a ha
  rcases old with _ | p
  · simp [streamCleanup] at ha
  · by_cases h : new_ = some p
    · simp [streamCleanup, h] at ha
    · simp [streamCleanup, h] at ha
      subst ha
      rfl

/-- C1: in every `startStream` run — for any device/profile change, any
prior state, any acquisition outcomes and whether or not the effect was
abandoned — a `stopTracks` event only ever occurs after a successful
`getUserMedia` acquisition (never release-before-acquire); and when the
request was abandoned before acquisition completed (`mounted = false`)
while acquisition succeeded with stream `s`, the run stops `s`'s tracks
immediately, never calls `setStream`, and leaves the hook state (hence
the active handle) unchanged, so `s` never becomes active. -/
theorem c1_release_after_acquire (compat : Bool) (dev : String) (mounted : Bool)
    (gum : Constraints → AcqResult) (st : HookState) :
    (∀ i p, (startStream compat dev mounted gum st).1.get? i
        = some (Ev.stopTracks p) →
      ∃ j, j < i ∧ ∃ c s, (startStream compat dev mounted gum st).1.get? j
        = some (Ev.getUserMedia c (AcqResult.ok s)))
    ∧ (mounted = false → ∀ s, acquireResult compat dev gum = AcqResult.ok s →
        Ev.stopTracks s ∈ (startStream compat dev mounted gum st).1
        ∧ (∀ q, Ev.setStream q ∉ (startStream compat dev mounted gum st).1)
        ∧ (startStream compat dev mounted gum st).2 = st) := by
  constructor
  · exact stopsPrecededByOkAux_spec _ (startStream_stops_ok compat dev mounted gum st)
  · rintro rfl s hs
    rcases h1 : gum (primaryConstraints compat dev) with s' | e1
    · have hss : s' = s := by
        have := hs
        simp [acquireResult, h1] at this
        exact this
      subst hss
      refine ⟨?_, ?_, ?_⟩ <;> simp [startStream, acquiredBranch, h1]
    · rcases h2 : gum (minimalConstraints dev) with s' | e2
      · have hss : s' = s := by
          have := hs
          simp [acquireResult, h1, h2] at this
          exact this
        subst hss
        refine ⟨?_, ?_, ?_⟩ <;> simp [startStream, acquiredBranch, h1, h2]
      · exfalso
        simp [acquireResult, h1, h2] at hs

/-- Witness for `c1_release_after_acquire`: an abandoned run that
acquired stream 7 stops its tracks and leaves the prior handle 3
active. -/
theorem c1_release_after_acquire_witness :
    Ev.stopTracks 7
        ∈ (startStream false "A" false (fun _ => AcqResult.ok 7) ⟨some 3, none⟩).1
    ∧ (startStream false "A" false (fun _ => AcqResult.ok 7) ⟨some 3, none⟩).2
        = ⟨some 3, none⟩ := by
  have h := (c1_release_after_acquire false "A" false (fun _ => AcqResult.ok 7)
    ⟨some 3, none⟩).2 rfl 7 rfl
  exact ⟨h.1, h.2.2⟩

/-- C2: when the full constraint set for the selected device fails,
acquisition is retried exactly once with the minimal constraint set
(device identity only) and with nothing else — the run's `getUserMedia`
calls are exactly those two; if the retry also fails (still mounted),
the run resolves — the model is a total function, mirroring the
try/catch that never throws past the hook — to the renderable fault
text with the active stream set to null, the prior stream's tracks
stopped by the stream-change cleanup; and in every run at most two
acquisition attempts are ever made. -/
theorem c2_retry_once_then_fault (compat : Bool) (dev : String)
    (gum : Constraints → AcqResult) (st : HookState) (e1 : String)
    (h1 : gum (primaryConstraints compat dev) = AcqResult.err e1) :
    gumCalls (runStartStream compat dev true gum st).1
      = [Ev.getUserMedia (primaryConstraints compat dev) (AcqResult.err e1),
         Ev.getUserMedia (minimalConstraints dev) (gum (minimalConstraints dev))]
    ∧ (∀ e2, gum (minimalConstraints dev) = AcqResult.err e2 →
        (runStartStream compat dev true gum st).2.stream = none
        ∧ (runStartStream compat dev true gum st).2.error
            = some ("Failed to connect: " ++ e2)
        ∧ (∀ p, st.stream = some p →
            Ev.stopTracks p ∈ (runStartStream compat dev true gum st).1))
    ∧ (∀ m : Bool, (gumCalls (startStream compat dev m gum st).1).length ≤ 2) := by
  refine ⟨?_, ?_, ?_⟩
  · rcases h2 : gum (minimalConstraints dev) with s | e2
    · rcases hst : st.stream with _ | p <;>
        simp [runStartStream, startStream, acquiredBranch, h1, h2, hst,
          gumCalls, isGumCall, List.filter_append] <;>
        exact fun a ha => isGumCall_streamCleanup _ _ a ha
    · simp [runStartStream, startStream, h1, h2,
        gumCalls, isGumCall, List.filter_append]
      exact fun a ha => isGumCall_streamCleanup _ _ a ha
  · intro e2 h2
    refine ⟨?_, ?_, ?_⟩
    · simp [runStartStream, startStream, h1, h2]
    · simp [runStartStream, startStream, h1, h2]
    · intro p hp
      simp [runStartStream, startStream, streamCleanup, h1, h2, hp]
  · intro m
    rcases h2 : gum (minimalConstraints dev) with s | e2
    · cases m
      · simp [startStream, acquiredBranch, h1, h2, gumCalls, isGumCall]
      · rcases hst : st.stream with _ | p <;>
          simp [startStream, acquiredBranch, h1, h2, hst, gumCalls, isGumCall]
    · cases m <;> simp [startStream, h1, h2, gumCalls, isGumCall]

/-- Witness for `c2_retry_once_then_fault`: both attempts fail with
`"E"`; the state ends with a null stream and the fault text, and the
prior stream 3 is stopped. -/
theorem c2_retry_once_then_fault_witness :
    (runStartStream false "A" true (fun _ => AcqResult.err "E") ⟨some 3, none⟩).2.stream
        = none
    ∧ (runStartStream false "A" true (fun _ => AcqResult.err "E") ⟨some 3, none⟩).2.error
        = some ("Failed to connect: " ++ "E")
    ∧ Ev.stopTracks 3
        ∈ (runStartStream false "A" true (fun _ => AcqResult.err "E") ⟨some 3, none⟩).1 := by
  have h := (c2_retry_once_then_fault false "A" (fun _ => AcqResult.err "E")
    ⟨some 3, none⟩ "E" rfl).2.1 "E" rfl
  exact ⟨h.1, h.2.1, h.2.2 3 rfl⟩

/-! ### Claim theorem for preference persistence -/

/-- C9: for every device identity (non-empty, as the effects require)
and every preference state whose aspect-ratio string is non-empty (all
UI values are), saving and then loading for the same identity yields
exactly the filters, aspect ratio, and compatibility mode that were
saved. -/
theorem c9_round_trip (store : Store) (deviceId : String) (f : Filters)
    (a : String) (c : Bool) (cur : LoadedState)
    (hdev : deviceId ≠ "") (ha : a ≠ "") :
    loadSettings (saveSettings store deviceId true f a c) deviceId cur
      = ⟨f, a, c⟩ := by
  simp [loadSettings, saveSettings, hdev, ha]

/-- Witness for `c9_round_trip`: device `"A"`, default filters, aspect
ratio `"3/2"`, compatibility mode off, empty store. -/
theorem c9_round_trip_witness :
    loadSettings (saveSettings (fun _ => none) "A" true DEFAULT_FILTERS "3/2" false)
        "A" ⟨DEFAULT_FILTERS, "3/2", false⟩
      = ⟨DEFAULT_FILTERS, "3/2", false⟩ := by
  exact c9_round_trip (fun _ => none) "A" DEFAULT_FILTERS "3/2" false
    ⟨DEFAULT_FILTERS, "3/2", false⟩ (by decide) (by decide)

end TWE
